import Mathlib

/-!
Shallow embedding of the playlist-manager repository's OAuth2 flow
(`src/config.py`, `src/oauth_server.py`) and of its paginated
retrieval / normalization pipeline (`src/services/spotify_service.py`,
`src/models.py`).  Each definition names the Python source it embeds.
Machine times are modelled as `Int` seconds; optional values as `Option`;
Python truthiness of optional strings / numbers is made explicit.
-/

namespace PlaylistManager

/-- Python truthiness of an `Optional[str]`: `None` and the empty string
are falsy, every other string is truthy. -/
def pyTruthyStr : Option String → Bool
  | none => false
  | some s => !s.isEmpty

/-- Python truthiness of an `Optional[float]` timestamp: `None` and `0`
are falsy. -/
def pyTruthyInt : Option Int → Bool
  | none => false
  | some i => i != 0

/-! ## TokenManager (src/config.py, class TokenManager) -/

/-- In-memory state of `TokenManager`: `access_token`, `refresh_token`,
`expires_at` (absolute epoch seconds), each possibly absent. -/
structure TokenState where
  access_token : Option String
  refresh_token : Option String
  expires_at : Option Int
deriving DecidableEq, Repr

/-- Embeds `TokenManager.save_tokens(access_token, refresh_token, expires_in)`:
stores the tokens and computes `expires_at = now + expires_in`.  The
`refresh` argument is an `Option` because `_refresh_token` passes the
possibly-absent previously stored refresh token as the default. -/
def save_tokens (access : String) (refresh : Option String)
    (expires_in now : Int) : TokenState :=
  { access_token := some access
    refresh_token := refresh
    expires_at := some (now + expires_in) }

/-- Embeds `TokenManager.is_token_valid`: `False` when `access_token` or
`expires_at` is Python-falsy, else `time.time() < expires_at - 300`
(5-minute safety buffer). -/
def is_token_valid (st : TokenState) (now : Int) : Bool :=
  if !(pyTruthyStr st.access_token) || !(pyTruthyInt st.expires_at) then
    false
  else
    decide (now < st.expires_at.getD 0 - 300)

/-- Embeds `TokenManager.has_refresh_token`: `bool(self.refresh_token)`. -/
def has_refresh_token (st : TokenState) : Bool :=
  pyTruthyStr st.refresh_token

/-! ## Callback listener (src/oauth_server.py, CallbackHandler / SpotifyOAuthServer) -/

/-- Query parameters of one GET request to the callback endpoint (first
value of each of the keys `code`, `error`, `state`; `parse_qs` drops
blank values, so recorded values are non-empty when present). -/
structure CallbackQuery where
  code : Option String
  error : Option String
  state : Option String
deriving DecidableEq, Repr

/-- Mutable fields the server object carries for the callback handler
(`auth_code`, `auth_error`, `auth_state`, `callback_received`),
initialised by `SpotifyOAuthServer.start_server`. -/
structure ServerState where
  auth_code : Option String
  auth_error : Option String
  auth_state : Option String
  callback_received : Bool
deriving DecidableEq, Repr

/-- Server fields as set by `start_server`: everything `None`/`False`. -/
def initialServerState : ServerState :=
  { auth_code := none, auth_error := none, auth_state := none
    callback_received := false }

/-- Embeds `CallbackHandler.do_GET`: on a `code`-bearing request, record
the code and the (possibly absent) `state` and answer 200; else on an
`error`-bearing request record the error and answer 400; else record
nothing and send no response (`none`).  In every case set
`callback_received`.  The handler never consults the previous state, so
each branch overwrites the corresponding fields unconditionally. -/
def do_GET (s : ServerState) (q : CallbackQuery) : ServerState × Option Nat :=
  match q.code with
  | some c =>
      ({ s with auth_code := some c, auth_state := q.state,
                callback_received := true }, some 200)
  | none =>
      match q.error with
      | some e =>
          ({ s with auth_error := some e, callback_received := true },
           some 400)
      | none => ({ s with callback_received := true }, none)

/-- Failures `SpotifyOAuthServer.wait_for_callback` can raise:
`TimeoutError("OAuth callback timeout")`, `Exception("OAuth error: ...")`
(the spec's `AuthorizationDenied`), and
`Exception("State parameter mismatch - possible CSRF attack")`
(the spec's `CsrfMismatch`). -/
inductive CallbackError where
  | callbackTimeout : CallbackError
  | authorizationDenied (msg : String) : CallbackError
  | csrfMismatch : CallbackError
deriving DecidableEq, Repr

/-- Embeds the state check inside `wait_for_callback`:
`hasattr(self, 'expected_state') and self.server.auth_state != self.expected_state`.
`expected = none` models the attribute never having been set by
`get_authorization_url`. -/
def stateMismatch : Option String → Option String → Bool
  | none, _ => false
  | some s, recorded => recorded != some s

/-- Embeds `SpotifyOAuthServer.wait_for_callback` applied to the server
state observed when the poll loop ends.  A server on which
`callback_received` never became true models the timeout.  Then: a
truthy recorded `auth_error` raises the OAuth error; a recorded
`auth_state` differing from the generated `expected` state raises the
CSRF mismatch; otherwise the (possibly absent) `auth_code` is returned.
The `expected` argument is the `expected_state` attribute set to the
random state generated by `get_authorization_url`. -/
def wait_for_callback (expected : Option String) (s : ServerState) :
    Except CallbackError (Option String) :=
  if !s.callback_received then
    Except.error CallbackError.callbackTimeout
  else if pyTruthyStr s.auth_error then
    Except.error (CallbackError.authorizationDenied (s.auth_error.getD ""))
  else if stateMismatch expected s.auth_state then
    Except.error CallbackError.csrfMismatch
  else
    Except.ok s.auth_code

/-! ## Authenticator (src/oauth_server.py, class SpotifyAuthenticator) -/

/-- JSON body of a successful refresh-grant response
(`SpotifyOAuthServer.refresh_access_token`): `access_token` and
`expires_in` are required (a missing key raises and is folded into the
`none` response below), `refresh_token` is present only when the server
rotated it. -/
structure RefreshResponse where
  access_token : String
  refresh_token : Option String
  expires_in : Int
deriving DecidableEq, Repr

/-- JSON body of a successful authorization-code exchange
(`SpotifyOAuthServer.exchange_code_for_tokens`): `_new_authentication`
indexes `access_token`, `refresh_token` and `expires_in` directly, so
all three are required. -/
structure ExchangeResponse where
  access_token : String
  refresh_token : String
  expires_in : Int
deriving DecidableEq, Repr

/-- Embeds `SpotifyAuthenticator._refresh_token`.  The `resp` argument
models the outcome of the POST to the token endpoint: `none` when the
request failed (non-200 status, network error, or a required key absent
from the JSON) — the raised exception is caught and `(False, unchanged
state)` results.  On `some r` the tokens are saved with
`r.get('refresh_token', old refresh token)` and `True` is returned. -/
def refreshTokenStep (st : TokenState) (resp : Option RefreshResponse)
    (now : Int) : Bool × TokenState :=
  match resp with
  | none => (false, st)
  | some r =>
      (true,
       save_tokens r.access_token
         (match r.refresh_token with
          | some rt => some rt
          | none => st.refresh_token)
         r.expires_in now)

/-- Exceptions `_new_authentication` can catch: a callback failure from
`wait_for_callback`, the explicit `"No authorization code received"`
raise, or a failed code-for-token exchange. -/
inductive AuthFailure where
  | callback (e : CallbackError) : AuthFailure
  | noAuthCode : AuthFailure
  | exchangeFailed : AuthFailure
deriving DecidableEq, Repr

/-- Outcome of `SpotifyAuthenticator._new_authentication`: the returned
boolean, the token-manager state afterwards, whether the token endpoint
was called with an authorization-code grant, and the exception caught
(if any). -/
structure NewAuthResult where
  success : Bool
  tokenState : TokenState
  exchange_called : Bool
  failure : Option AuthFailure
deriving DecidableEq, Repr

/-- Embeds `SpotifyAuthenticator._new_authentication` for a run of the
flow: the listener starts fresh, `get_authorization_url` generates the
random state `S`, and `redirect` is the single GET request the browser
delivered to the listener (`none` when no request arrived before the
timeout).  `exchangeResp code` models the token endpoint's answer to the
authorization-code exchange for `code` (`none` = failure).  Every raised
exception is caught and yields `success = false` with the token state
unchanged; `stop_server` runs in the `finally` block on all paths. -/
def newAuthentication (st : TokenState) (S : String)
    (redirect : Option CallbackQuery)
    (exchangeResp : String → Option ExchangeResponse) (now : Int) :
    NewAuthResult :=
  let server : ServerState :=
    match redirect with
    | none => initialServerState
    | some q => (do_GET initialServerState q).1
  match wait_for_callback (some S) server with
  | Except.error e =>
      { success := false, tokenState := st, exchange_called := false
        failure := some (AuthFailure.callback e) }
  | Except.ok codeOpt =>
      if !pyTruthyStr codeOpt then
        { success := false, tokenState := st, exchange_called := false
          failure := some AuthFailure.noAuthCode }
      else
        match exchangeResp (codeOpt.getD "") with
        | none =>
            { success := false, tokenState := st, exchange_called := true
              failure := some AuthFailure.exchangeFailed }
        | some r =>
            { success := true
              tokenState :=
                save_tokens r.access_token (some r.refresh_token)
                  r.expires_in now
              exchange_called := true
              failure := none }

/-- Embeds `SpotifyAuthenticator.authenticate`: use the cached token if
still valid; else attempt a refresh when a refresh token is stored,
falling through to a fresh interactive flow when the refresh fails; else
run the fresh flow directly.  Returns (result, token state afterwards,
whether the authorization-code exchange endpoint was called). -/
def authenticate (st : TokenState) (now : Int)
    (refreshResp : Option RefreshResponse) (S : String)
    (redirect : Option CallbackQuery)
    (exchangeResp : String → Option ExchangeResponse) :
    Bool × TokenState × Bool :=
  if is_token_valid st now then
    (true, st, false)
  else if has_refresh_token st then
    match refreshTokenStep st refreshResp now with
    | (true, st2) => (true, st2, false)
    | (false, st2) =>
        let r := newAuthentication st2 S redirect exchangeResp now
        (r.success, r.tokenState, r.exchange_called)
  else
    let r := newAuthentication st S redirect exchangeResp now
    (r.success, r.tokenState, r.exchange_called)

/-! ## Domain entities (src/models.py) -/

/-- PlaylistType enum from `src/models.py`. -/
inductive PlaylistType where
  | owned : PlaylistType
  | followed : PlaylistType
  | collaborative : PlaylistType
deriving DecidableEq, Repr

/-- PlaylistOwner dataclass; `external_urls` dictionaries are modelled as
association lists. -/
structure PlaylistOwner where
  id : String
  display_name : String
  uri : String
  external_urls : List (String × String)
deriving DecidableEq, Repr

/-- Track dataclass, reduced to identity fields: none of the verified
properties inspects the inner track mapping, so the remaining fields of
`_parse_track` are not modelled. -/
structure Track where
  id : String
  name : String
  uri : String
deriving DecidableEq, Repr

/-- Playlist dataclass.  Image records are never inspected (passed
through unchanged), so they are modelled as plain strings. -/
structure Playlist where
  id : String
  name : String
  description : Option String
  uri : String
  playlist_type : PlaylistType
  public : Bool
  collaborative : Bool
  owner : PlaylistOwner
  follower_count : Nat
  track_count : Nat
  tracks : List Track
  images : List String
  external_urls : List (String × String)
  snapshot_id : String
deriving DecidableEq, Repr

/-- UserProfile dataclass. -/
structure UserProfile where
  id : String
  display_name : String
  email : String
  country : String
  follower_count : Nat
  uri : String
  external_urls : List (String × String)
  images : List String
  product : String
deriving DecidableEq, Repr

/-! ## Wire records and EntityParser (src/services/spotify_service.py) -/

/-- Wire form of one playlist record as consumed by
`_parse_playlist_summary`: required keys are plain fields, keys read
with `.get(...)` are `Option`s. -/
structure PlaylistData where
  id : String
  name : String
  description : Option String
  uri : String
  owner_id : String
  owner_display_name : String
  owner_uri : String
  owner_external_urls : Option (List (String × String))
  public : Option Bool
  collaborative : Option Bool
  followers_total : Option Nat
  tracks_total : Nat
  images : Option (List String)
  external_urls : Option (List (String × String))
  snapshot_id : String
deriving DecidableEq, Repr

/-- Embeds `SpotifyService._parse_playlist_summary`.  `user_profile` is
`self._user_profile` (absent when the best-effort profile load after
authentication failed); the ownership comparison
`data["owner"]["id"] == current_user_id` is string-vs-`None` equality,
which is `False` whenever the profile is absent.  `tracks` starts empty
and is populated later. -/
def parse_playlist_summary (user_profile : Option UserProfile)
    (data : PlaylistData) : Playlist :=
  let owner : PlaylistOwner :=
    { id := data.owner_id, display_name := data.owner_display_name
      uri := data.owner_uri
      external_urls := data.owner_external_urls.getD [] }
  let current_user_id : Option String := user_profile.map (fun u => u.id)
  let playlist_type :=
    if some data.owner_id = current_user_id then
      if data.collaborative.getD false then PlaylistType.collaborative
      else PlaylistType.owned
    else PlaylistType.followed
  { id := data.id, name := data.name, description := data.description
    uri := data.uri, playlist_type := playlist_type
    public := data.public.getD false
    collaborative := data.collaborative.getD false
    owner := owner
    follower_count := data.followers_total.getD 0
    track_count := data.tracks_total
    tracks := []
    images := data.images.getD []
    external_urls := data.external_urls.getD []
    snapshot_id := data.snapshot_id }

/-- Embeds `SpotifyService._parse_playlist_detailed`: parse the summary,
then attach the separately fetched tracks. -/
def parse_playlist_detailed (user_profile : Option UserProfile)
    (data : PlaylistData) (tracks : List Track) : Playlist :=
  { parse_playlist_summary user_profile data with tracks := tracks }

/-- Embeds the track-loading loop at the end of
`SpotifyService.get_user_playlists`: for each playlist, fetch its
detailed track list and install it; a raised exception is caught and
downgrades that playlist's `tracks` to `[]`.  `fetchTracks p.id` models
the outcome of `get_playlist_details(p.id).tracks`. -/
def load_playlist_tracks (fetchTracks : String → Except String (List Track))
    (ps : List Playlist) : List Playlist :=
  ps.map (fun p =>
    { p with tracks :=
        match fetchTracks p.id with
        | Except.ok ts => ts
        | Except.error _ => [] })

/-! ## PageFetcher (src/services/spotify_service.py, get_user_playlists) -/

/-- Embeds the `while True` pagination loop of
`SpotifyService.get_user_playlists` over a collection `items` held by
the server.  A request at `offset` is answered with the page
`items[offset : offset + batch]`, and the response's `next` cursor is
present exactly when `offset + batch < len(items)`.  `acc` is the
`playlists` accumulator, `log` the list of offsets requested so far.
The loop body appends the page, breaks when there is no `next` page or
when a truthy `limit` has been reached (`limit and len(acc) >= limit`),
and otherwise advances `offset` by `batch`.  The callers below always
pass `batch ≥ 1` (as does the source, where `batch` is `50` or
`min(50, limit)` with a truthy `limit`); the `batch = 0` test merely
makes the recursion well founded.  `limitHitB limit n` is the Python
break test `limit and n >= limit` on an accumulator of length `n`. -/
def limitHitB (limit : Option Nat) (n : Nat) : Bool :=
  match limit with
  | some l => decide (0 < l) && decide (l ≤ n)
  | none => false

def pagGo {α : Type} (items : List α) (batch : Nat) (limit : Option Nat)
    (acc : List α) (offset : Nat) (log : List Nat) : List α × List Nat :=
  let acc2 := acc ++ (items.drop offset).take batch
  if items.length ≤ offset + batch ∨ limitHitB limit acc2.length = true ∨ batch = 0 then
    (acc2, log ++ [offset])
  else
    pagGo items batch limit acc2 (offset + batch) (log ++ [offset])
termination_by items.length - offset
decreasing_by
  rename_i h
  push_neg at h
  omega

/-- Embeds `SpotifyService.get_user_playlists` up to (and including) the
`playlists[:limit]` truncation, over the raw server collection `items`:
`batch_limit = min(50, limit) if limit else 50`, the pagination loop
starting at offset 0, then `playlists = playlists[:limit]` when `limit`
is truthy.  Returns the retrieved items and the list of requested
offsets.  A `limit` of `some 0` is Python-falsy and behaves exactly like
`none`. -/
def get_user_playlists_raw {α : Type} (items : List α) (limit : Option Nat) :
    List α × List Nat :=
  let batch_limit : Nat :=
    match limit with
    | some l => if 0 < l then min 50 l else 50
    | none => 50
  let r := pagGo items batch_limit limit [] 0 []
  let final : List α :=
    match limit with
    | some l => if 0 < l then r.1.take l else r.1
    | none => r.1
  (final, r.2)

/-! ## SpotifyService operations (src/services/spotify_service.py) -/

/-- Exceptions of `src/services/base.py` raised by the service layer:
`AuthenticationError`, `RateLimitError`, and the base
`MusicServiceError` (generic API errors). -/
inductive ServiceError where
  | authenticationError (msg : String) : ServiceError
  | rateLimitError (msg : String) : ServiceError
  | musicServiceError (msg : String) : ServiceError
deriving DecidableEq, Repr

/-- One HTTP request issued through `_make_request`. -/
structure ApiRequest where
  method : String
  endpoint : String
deriving DecidableEq, Repr

/-- Mutable state of a `SpotifyService` instance relevant to the
operations: the `_authenticated` flag and the cached `_user_profile`. -/
structure ServiceState where
  authenticated : Bool
  user_profile : Option UserProfile
deriving DecidableEq, Repr

/-- Wire form of the `/me` profile response as consumed by
`get_user_profile`: `id` and `uri` are required, the rest read with
`.get(...)`. -/
structure ProfileData where
  id : String
  display_name : Option String
  email : Option String
  country : Option String
  followers_total : Option Nat
  uri : String
  external_urls : Option (List (String × String))
  images : Option (List String)
  product : Option String
deriving DecidableEq, Repr

/-- Embeds the body of `SpotifyService.get_user_profile` after the
request: field-by-field mapping with the source's defaults
(`display_name` defaulting to the id, `product` to `"free"`). -/
def parse_user_profile (d : ProfileData) : UserProfile :=
  { id := d.id
    display_name := d.display_name.getD d.id
    email := d.email.getD ""
    country := d.country.getD ""
    follower_count := d.followers_total.getD 0
    uri := d.uri
    external_urls := d.external_urls.getD []
    images := d.images.getD []
    product := d.product.getD "free" }

/-- Embeds `SpotifyService.get_user_profile`: raise
`AuthenticationError("Not authenticated")` before any request when the
`_authenticated` flag is unset; otherwise issue `GET /me` (whose outcome
`resp` models `_make_request`) and parse the response.  Returns the
service state afterwards, the result, and the requests issued. -/
def svc_get_user_profile (svc : ServiceState)
    (resp : Except ServiceError ProfileData) :
    ServiceState × Except ServiceError UserProfile × List ApiRequest :=
  if svc.authenticated = false then
    (svc, Except.error (ServiceError.authenticationError "Not authenticated"), [])
  else
    match resp with
    | Except.error e => (svc, Except.error e, [{ method := "GET", endpoint := "/me" }])
    | Except.ok d =>
        (svc, Except.ok (parse_user_profile d),
         [{ method := "GET", endpoint := "/me" }])

/-- Embeds `SpotifyService.get_user_playlists`: the authentication
guard, then the pagination of `/me/playlists` over the server's
collection `serverItems` (each page's records parsed with
`_parse_playlist_summary` as they arrive — parsing per page and parsing
the concatenation agree), then the per-playlist track-loading loop.
`fetchTracks` models the nested `get_playlist_details` track fetch. -/
def svc_get_user_playlists (svc : ServiceState)
    (serverItems : List PlaylistData)
    (fetchTracks : String → Except String (List Track))
    (limit : Option Nat) :
    ServiceState × Except ServiceError (List Playlist) × List ApiRequest :=
  if svc.authenticated = false then
    (svc, Except.error (ServiceError.authenticationError "Not authenticated"), [])
  else
    let r := get_user_playlists_raw serverItems limit
    let parsed := r.1.map (parse_playlist_summary svc.user_profile)
    (svc, Except.ok (load_playlist_tracks fetchTracks parsed),
     r.2.map (fun _ => { method := "GET", endpoint := "/me/playlists" }))

/-- Embeds `SpotifyService.get_playlist_details`: the authentication
guard, then the playlist-metadata request and the nested track fetch,
then `_parse_playlist_detailed`. -/
def svc_get_playlist_details (svc : ServiceState)
    (fetchMeta : String → Except ServiceError PlaylistData)
    (fetchTracks : String → Except ServiceError (List Track))
    (playlist_id : String) :
    ServiceState × Except ServiceError Playlist × List ApiRequest :=
  if svc.authenticated = false then
    (svc, Except.error (ServiceError.authenticationError "Not authenticated"), [])
  else
    match fetchMeta playlist_id with
    | Except.error e =>
        (svc, Except.error e,
         [{ method := "GET", endpoint := "/playlists/" ++ playlist_id }])
    | Except.ok d =>
        match fetchTracks playlist_id with
        | Except.error e =>
            (svc, Except.error e,
             [{ method := "GET", endpoint := "/playlists/" ++ playlist_id }])
        | Except.ok ts =>
            (svc, Except.ok (parse_playlist_detailed svc.user_profile d ts),
             [{ method := "GET", endpoint := "/playlists/" ++ playlist_id }])

/-- Wire form of one entry of a `/playlists/{id}/tracks` page: the inner
track object may be `null` (deleted tracks) and its `id` may be `null`
(local files). -/
structure TrackItemData where
  track_id : Option (Option String)
  track_name : String
  track_uri : String
deriving DecidableEq, Repr

/-- Embeds the per-item filter of `get_playlist_tracks`:
`if item["track"] and item["track"]["id"]` — skip `null` tracks and
tracks with a falsy id, parse the rest. -/
def parse_track_item (it : TrackItemData) : Option Track :=
  match it.track_id with
  | none => none
  | some none => none
  | some (some tid) =>
      if tid.isEmpty then none
      else some { id := tid, name := it.track_name, uri := it.track_uri }

/-- Embeds `SpotifyService.get_playlist_tracks`: the authentication
guard, then the page loop over the playlist's track items (page size 50,
no caller limit, same offset/`next` bookkeeping as the playlist loop —
skipped null entries do not affect it), with the null-track filter
applied to the collected items. -/
def svc_get_playlist_tracks (svc : ServiceState)
    (trackItems : String → List TrackItemData)
    (playlist_id : String) :
    ServiceState × Except ServiceError (List Track) × List ApiRequest :=
  if svc.authenticated = false then
    (svc, Except.error (ServiceError.authenticationError "Not authenticated"), [])
  else
    let r := pagGo (trackItems playlist_id) 50 none [] 0 []
    (svc, Except.ok (r.1.filterMap parse_track_item),
     r.2.map (fun _ =>
       { method := "GET"
         endpoint := "/playlists/" ++ playlist_id ++ "/tracks" }))

/-! ## Sample inputs used by witnesses -/

/-- Concrete user profile for witnesses. -/
def sampleUser : UserProfile :=
  { id := "alice", display_name := "Alice", email := "", country := ""
    follower_count := 0, uri := "spotify:user:alice", external_urls := []
    images := [], product := "free" }

/-- Concrete playlist wire record for witnesses, owned by `sampleUser`
and flagged collaborative. -/
def samplePlaylistData : PlaylistData :=
  { id := "p1", name := "Mix", description := none
    uri := "spotify:playlist:p1", owner_id := "alice"
    owner_display_name := "Alice", owner_uri := "spotify:user:alice"
    owner_external_urls := none, public := none
    collaborative := some true, followers_total := none, tracks_total := 2
    images := none, external_urls := none, snapshot_id := "snap1" }

/-- Concrete parsed playlist for witnesses. -/
def samplePlaylist : Playlist :=
  parse_playlist_summary (some sampleUser) samplePlaylistData

/-- Concrete track for witnesses. -/
def sampleTrack : Track :=
  { id := "t1", name := "Song", uri := "spotify:track:t1" }

/-- Concrete three-playlist listing for witnesses. -/
def samplePlaylists : List Playlist :=
  [samplePlaylist, { samplePlaylist with id := "p2" },
   { samplePlaylist with id := "p3" }]

/-- Concrete track fetcher for witnesses: the fetch for playlist `p2`
raises, every other fetch succeeds. -/
def sampleFetch : String → Except String (List Track) :=
  fun pid =>
    if pid = "p2" then Except.error "network error"
    else Except.ok [sampleTrack]

/-- Concrete token-manager state for witnesses: no access token, a
stored refresh token. -/
def sampleTokenState : TokenState :=
  { access_token := none, refresh_token := some "R", expires_at := none }

/-- Concrete empty token-manager state for witnesses. -/
def emptyTokenState : TokenState :=
  { access_token := none, refresh_token := none, expires_at := none }

/-- Concrete `/me` wire profile for witnesses. -/
def sampleProfileData : ProfileData :=
  { id := "alice", display_name := none, email := none, country := none
    followers_total := none, uri := "spotify:user:alice"
    external_urls := none, images := none, product := none }

/-! ## Theorems -/

/-- C1, counterexample: after a first redirect recorded the success
result `code = "A"`, a second code-bearing redirect to the same listener
changes the recorded code to `"B"`, and a subsequent error redirect is
answered with HTTP 400 rather than 200 — the result slot is not
first-writer-wins. -/
theorem do_GET_overwrite_counterexample :
    ((do_GET (do_GET initialServerState
        { code := some "A", error := none, state := some "S" }).1
        { code := some "B", error := none, state := some "S" }).1.auth_code
      ≠ (do_GET initialServerState
        { code := some "A", error := none, state := some "S" }).1.auth_code)
    ∧ (do_GET (do_GET initialServerState
        { code := some "A", error := none, state := some "S" }).1
        { code := none, error := some "access_denied", state := none }).2
      = some 400 := by
  decide

/-- C1 (amended): the handler never consults the previously recorded
result.  Every GET request bearing a `code` is answered HTTP 200 and
overwrites the recorded code and state with its own values
(last-writer-wins), leaving the recorded error untouched and marking the
callback received. -/
theorem do_GET_last_writer_wins (s : ServerState) (q : CallbackQuery)
    (c : String) (h : q.code = some c) :
    (do_GET s q).2 = some 200 ∧
    (do_GET s q).1.auth_code = some c ∧
    (do_GET s q).1.auth_state = q.state ∧
    (do_GET s q).1.auth_error = s.auth_error ∧
    (do_GET s q).1.callback_received = true := by
  obtain ⟨qc, qe, qs⟩ := q
  cases h
  simp [do_GET]

/-- C1 witness: the amended behavior at a concrete listener state and
request. -/
theorem do_GET_last_writer_wins_witness :
    (do_GET (do_GET initialServerState
        { code := some "A", error := none, state := some "S" }).1
        { code := some "B", error := none, state := some "T" }).2 = some 200 ∧
    (do_GET (do_GET initialServerState
        { code := some "A", error := none, state := some "S" }).1
        { code := some "B", error := none, state := some "T" }).1.auth_code
      = some "B" ∧
    (do_GET (do_GET initialServerState
        { code := some "A", error := none, state := some "S" }).1
        { code := some "B", error := none, state := some "T" }).1.auth_state
      = ({ code := some "B", error := none, state := some "T" } :
          CallbackQuery).state ∧
    (do_GET (do_GET initialServerState
        { code := some "A", error := none, state := some "S" }).1
        { code := some "B", error := none, state := some "T" }).1.auth_error
      = (do_GET initialServerState
        { code := some "A", error := none, state := some "S" }).1.auth_error ∧
    (do_GET (do_GET initialServerState
        { code := some "A", error := none, state := some "S" }).1
        { code := some "B", error := none, state := some "T" }).1.callback_received
      = true :=
  do_GET_last_writer_wins
    (do_GET initialServerState
      { code := some "A", error := none, state := some "S" }).1
    { code := some "B", error := none, state := some "T" } "B" rfl

/-- C2: for a generated state `S`, a redirect that is not error-bearing
and carries any state value different from `S` makes
`wait_for_callback` fail with the CSRF mismatch, regardless of whether
an authorization code is present in the same redirect. -/
theorem wait_for_callback_csrf_mismatch (q : CallbackQuery) (S : String)
    (herr : q.error = none) (hstate : q.state ≠ some S) :
    wait_for_callback (some S) (do_GET initialServerState q).1 =
      Except.error CallbackError.csrfMismatch := by
  obtain ⟨qc, qe, qs⟩ := q
  cases herr
  cases qc <;>
    simp_all [do_GET, wait_for_callback, initialServerState, pyTruthyStr,
      stateMismatch]

/-- C2 witness: a code-bearing redirect with a wrong state at a concrete
input. -/
theorem wait_for_callback_csrf_mismatch_witness :
    wait_for_callback (some "good")
      (do_GET initialServerState
        { code := some "c", error := none, state := some "evil" }).1 =
      Except.error CallbackError.csrfMismatch :=
  wait_for_callback_csrf_mismatch
    { code := some "c", error := none, state := some "evil" } "good" rfl
    (by decide)

/-- C3: at any physical time (`0 ≤ now`), `is_token_valid` is true
exactly when an access token is present (a non-empty token — the source
tests Python truthiness) and `now < expires_at - 300`; in every other
state, including a missing access token or a missing `expires_at`, it
is false. -/
theorem is_token_valid_iff (st : TokenState) (now : Int) (hnow : 0 ≤ now) :
    is_token_valid st now = true ↔
      (pyTruthyStr st.access_token = true ∧
        ∃ e, st.expires_at = some e ∧ now < e - 300) := by
  obtain ⟨tok, rt, ex⟩ := st
  cases htok : pyTruthyStr tok with
  | false => simp [is_token_valid, htok]
  | true =>
    cases ex with
    | none => simp [is_token_valid, pyTruthyInt, htok]
    | some e =>
      by_cases he : e = 0
      · subst he
        simp [is_token_valid, pyTruthyInt, htok]
        omega
      · simp [is_token_valid, pyTruthyInt, htok, he]

/-- C3 witness: a present token with a comfortably future expiry is
valid at time 0. -/
theorem is_token_valid_iff_witness :
    is_token_valid
      { access_token := some "tok", refresh_token := none
        expires_at := some 1000 } 0 = true :=
  (is_token_valid_iff
      { access_token := some "tok", refresh_token := none
        expires_at := some 1000 } 0 (by decide)).mpr
    ⟨by decide, 1000, rfl, by decide⟩

/-- C5: with an authenticated current user available, a playlist whose
owner is the current user parses as COLLABORATIVE when its collaborative
flag is set and as OWNED when it is not, and a playlist owned by anyone
else parses as FOLLOWED regardless of the flag. -/
theorem parse_playlist_classification (u : UserProfile) (d : PlaylistData) :
    (d.owner_id = u.id → d.collaborative.getD false = true →
      (parse_playlist_summary (some u) d).playlist_type =
        PlaylistType.collaborative) ∧
    (d.owner_id = u.id → d.collaborative.getD false = false →
      (parse_playlist_summary (some u) d).playlist_type =
        PlaylistType.owned) ∧
    (d.owner_id ≠ u.id →
      (parse_playlist_summary (some u) d).playlist_type =
        PlaylistType.followed) := by
  refine ⟨fun h1 h2 => ?_, fun h1 h2 => ?_, fun h1 => ?_⟩
  · simp [parse_playlist_summary, h1, h2]
  · simp [parse_playlist_summary, h1, h2]
  · simp [parse_playlist_summary, h1]

/-- C5 witness: the three classification cases at concrete records. -/
theorem parse_playlist_classification_witness :
    (parse_playlist_summary (some sampleUser) samplePlaylistData).playlist_type
      = PlaylistType.collaborative ∧
    (parse_playlist_summary (some sampleUser)
        { samplePlaylistData with collaborative := some false }).playlist_type
      = PlaylistType.owned ∧
    (parse_playlist_summary (some sampleUser)
        { samplePlaylistData with owner_id := "bob" }).playlist_type
      = PlaylistType.followed :=
  ⟨(parse_playlist_classification sampleUser samplePlaylistData).1
      rfl (by decide),
   (parse_playlist_classification sampleUser
      { samplePlaylistData with collaborative := some false }).2.1
      rfl (by decide),
   (parse_playlist_classification sampleUser
      { samplePlaylistData with owner_id := "bob" }).2.2 (by decide)⟩

/-- C9: when the cached user profile is absent (the best-effort profile
load after authentication failed), the ownership comparison is
string-versus-None and therefore false, so every playlist — including
one actually owned by the authenticated user — parses as FOLLOWED. -/
theorem parse_playlist_no_profile_followed (d : PlaylistData) :
    (parse_playlist_summary none d).playlist_type = PlaylistType.followed := by
  simp [parse_playlist_summary]

/-- C6: a raised per-playlist track fetch is caught: the listing keeps
every playlist (same length, same positions), the failing playlist's
tracks are downgraded to the empty sequence, and a playlist whose fetch
succeeds receives exactly its fetched tracks. -/
theorem load_tracks_failure_degrade
    (fetch : String → Except String (List Track)) (ps : List Playlist)
    (i j : Nat) (hi : i < ps.length) (hj : j < ps.length) (msg : String)
    (ts : List Track)
    (hfail : fetch (ps.get ⟨i, hi⟩).id = Except.error msg)
    (hok : fetch (ps.get ⟨j, hj⟩).id = Except.ok ts) :
    (load_playlist_tracks fetch ps).length = ps.length ∧
    (load_playlist_tracks fetch ps).get? i =
      some { ps.get ⟨i, hi⟩ with tracks := [] } ∧
    (load_playlist_tracks fetch ps).get? j =
      some { ps.get ⟨j, hj⟩ with tracks := ts } := by
  refine ⟨by simp [load_playlist_tracks], ?_, ?_⟩
  · simp only [load_playlist_tracks, List.get?_map,
      List.get?_eq_get hi, Option.map_some']
    rw [hfail]
  · simp only [load_playlist_tracks, List.get?_map,
      List.get?_eq_get hj, Option.map_some']
    rw [hok]

/-- C6 witness: three playlists, the second one's track fetch raises. -/
theorem load_tracks_failure_degrade_witness :
    (load_playlist_tracks sampleFetch samplePlaylists).length =
      samplePlaylists.length ∧
    (load_playlist_tracks sampleFetch samplePlaylists).get? 1 =
      some { samplePlaylists.get ⟨1, by decide⟩ with tracks := [] } ∧
    (load_playlist_tracks sampleFetch samplePlaylists).get? 0 =
      some { samplePlaylists.get ⟨0, by decide⟩ with
              tracks := [sampleTrack] } :=
  load_tracks_failure_degrade sampleFetch samplePlaylists 1 0 (by decide)
    (by decide) "network error" [sampleTrack] rfl rfl

/-- C7: a successful refresh whose response carries no rotated refresh
token persists the new access token and expiry while keeping the stored
refresh token; a failed refresh returns `False` with the token state
unchanged, and `authenticate` then falls through to the fresh
interactive flow instead of failing. -/
theorem refresh_success_keep_and_failure_fallthrough (st : TokenState)
    (r : RefreshResponse) (now : Int) (S : String)
    (redirect : Option CallbackQuery)
    (xresp : String → Option ExchangeResponse)
    (hnorot : r.refresh_token = none)
    (hvalid : is_token_valid st now = false)
    (hhas : has_refresh_token st = true) :
    refreshTokenStep st (some r) now =
      (true, { access_token := some r.access_token
               refresh_token := st.refresh_token
               expires_at := some (now + r.expires_in) }) ∧
    refreshTokenStep st none now = (false, st) ∧
    authenticate st now none S redirect xresp =
      ((newAuthentication st S redirect xresp now).success,
       (newAuthentication st S redirect xresp now).tokenState,
       (newAuthentication st S redirect xresp now).exchange_called) := by
  refine ⟨?_, rfl, ?_⟩
  · simp [refreshTokenStep, save_tokens, hnorot]
  · simp [authenticate, hvalid, hhas, refreshTokenStep]

/-- C7 witness: concrete refresh of a state holding refresh token `R`;
the response rotates nothing, so `R` is kept. -/
theorem refresh_success_keep_and_failure_fallthrough_witness :
    refreshTokenStep sampleTokenState
      (some { access_token := "T2", refresh_token := none
              expires_in := 3600 }) 0 =
      (true, { access_token := some "T2"
               refresh_token := sampleTokenState.refresh_token
               expires_at := some ((0 : Int) + 3600) }) ∧
    refreshTokenStep sampleTokenState none 0 = (false, sampleTokenState) ∧
    authenticate sampleTokenState 0 none "s" none (fun _ => none) =
      ((newAuthentication sampleTokenState "s" none (fun _ => none) 0).success,
       (newAuthentication sampleTokenState "s" none (fun _ => none) 0).tokenState,
       (newAuthentication sampleTokenState "s" none
          (fun _ => none) 0).exchange_called) :=
  refresh_success_keep_and_failure_fallthrough sampleTokenState
    { access_token := "T2", refresh_token := none, expires_in := 3600 }
    0 "s" none (fun _ => none) rfl rfl rfl

/-- C8: when the one redirect delivered to the listener carries an
error (such as `access_denied`) and no code, the fresh flow fails with
the authorization-denied outcome, the authorization-code exchange
endpoint is never called, and the overall `authenticate` returns the
failure with the token state unchanged. -/
theorem denied_callback_never_exchanges (st : TokenState) (now : Int)
    (S : String) (q : CallbackQuery) (rresp : Option RefreshResponse)
    (xresp : String → Option ExchangeResponse)
    (hvalid : is_token_valid st now = false)
    (hhas : has_refresh_token st = false)
    (hcode : q.code = none) (herr : pyTruthyStr q.error = true) :
    (newAuthentication st S (some q) xresp now).success = false ∧
    (newAuthentication st S (some q) xresp now).exchange_called = false ∧
    (newAuthentication st S (some q) xresp now).failure =
      some (AuthFailure.callback
        (CallbackError.authorizationDenied (q.error.getD ""))) ∧
    authenticate st now rresp S (some q) xresp = (false, st, false) := by
  obtain ⟨qc, qe, qs⟩ := q
  cases hcode
  cases qe with
  | none => simp [pyTruthyStr] at herr
  | some e =>
    have hne : e.isEmpty = false := by simpa [pyTruthyStr] using herr
    refine ⟨?_, ?_, ?_, ?_⟩ <;>
      simp [newAuthentication, do_GET, wait_for_callback, initialServerState,
        pyTruthyStr, hne, authenticate, hvalid, hhas]

/-- C8 witness: a concrete `access_denied` redirect. -/
theorem denied_callback_never_exchanges_witness :
    (newAuthentication emptyTokenState "s"
      (some { code := none, error := some "access_denied", state := none })
      (fun _ => none) 0).success = false ∧
    (newAuthentication emptyTokenState "s"
      (some { code := none, error := some "access_denied", state := none })
      (fun _ => none) 0).exchange_called = false ∧
    (newAuthentication emptyTokenState "s"
      (some { code := none, error := some "access_denied", state := none })
      (fun _ => none) 0).failure =
      some (AuthFailure.callback
        (CallbackError.authorizationDenied
          (Option.getD (some "access_denied") ""))) ∧
    authenticate emptyTokenState 0 none "s"
      (some { code := none, error := some "access_denied", state := none })
      (fun _ => none) = (false, emptyTokenState, false) :=
  denied_callback_never_exchanges emptyTokenState 0 "s"
    { code := none, error := some "access_denied", state := none }
    none (fun _ => none) rfl rfl rfl rfl

/-- C10: each data operation called before a successful `authenticate`
raises `AuthenticationError("Not authenticated")` without issuing any
request and without changing the service state. -/
theorem unauthenticated_ops_guard (svc : ServiceState)
    (presp : Except ServiceError ProfileData)
    (serverItems : List PlaylistData)
    (ftracks : String → Except String (List Track))
    (fmeta : String → Except ServiceError PlaylistData)
    (ftracks2 : String → Except ServiceError (List Track))
    (titems : String → List TrackItemData)
    (limit : Option Nat) (pid pid2 : String)
    (h : svc.authenticated = false) :
    svc_get_user_profile svc presp =
      (svc, Except.error (ServiceError.authenticationError "Not authenticated"),
       []) ∧
    svc_get_user_playlists svc serverItems ftracks limit =
      (svc, Except.error (ServiceError.authenticationError "Not authenticated"),
       []) ∧
    svc_get_playlist_details svc fmeta ftracks2 pid =
      (svc, Except.error (ServiceError.authenticationError "Not authenticated"),
       []) ∧
    svc_get_playlist_tracks svc titems pid2 =
      (svc, Except.error (ServiceError.authenticationError "Not authenticated"),
       []) := by
  refine ⟨?_, ?_, ?_, ?_⟩ <;>
    simp [svc_get_user_profile, svc_get_user_playlists,
      svc_get_playlist_details, svc_get_playlist_tracks, h]

/-- C10 witness: all four guards at a concrete unauthenticated service
state. -/
theorem unauthenticated_ops_guard_witness :
    svc_get_user_profile { authenticated := false, user_profile := none }
      (Except.ok sampleProfileData) =
      ({ authenticated := false, user_profile := none },
       Except.error (ServiceError.authenticationError "Not authenticated"),
       []) ∧
    svc_get_user_playlists { authenticated := false, user_profile := none }
      [samplePlaylistData] sampleFetch none =
      ({ authenticated := false, user_profile := none },
       Except.error (ServiceError.authenticationError "Not authenticated"),
       []) ∧
    svc_get_playlist_details { authenticated := false, user_profile := none }
      (fun _ => Except.ok samplePlaylistData)
      (fun _ => Except.ok [sampleTrack]) "p1" =
      ({ authenticated := false, user_profile := none },
       Except.error (ServiceError.authenticationError "Not authenticated"),
       []) ∧
    svc_get_playlist_tracks { authenticated := false, user_profile := none }
      (fun _ => []) "p1" =
      ({ authenticated := false, user_profile := none },
       Except.error (ServiceError.authenticationError "Not authenticated"),
       []) :=
  unauthenticated_ops_guard { authenticated := false, user_profile := none }
    (Except.ok sampleProfileData) [samplePlaylistData] sampleFetch
    (fun _ => Except.ok samplePlaylistData) (fun _ => Except.ok [sampleTrack])
    (fun _ => []) none "p1" "p1" rfl

/-- Helper: the ceiling division `(M + b - 1) / b` is at most `c` when
`M ≤ c * b`. -/
theorem ceilDiv_le_of_le {M b c : Nat} (hb : 0 < b) (hc : M ≤ c * b) :
    (M + b - 1) / b ≤ c := by
  by_contra hlt
  push_neg at hlt
  have h2 : (c + 1) * b ≤ ((M + b - 1) / b) * b := mul_le_mul_right' hlt b
  have h3 : ((M + b - 1) / b) * b ≤ M + b - 1 := Nat.div_mul_le_self _ _
  have h4 : (c + 1) * b = c * b + b := by ring
  omega

/-- Helper: the ceiling division `(M + b - 1) / b` exceeds `c` when
`c * b < M`. -/
theorem le_ceilDiv_of_lt {M b c : Nat} (hb : 0 < b) (hc : c * b < M) :
    c + 1 ≤ (M + b - 1) / b := by
  rw [Nat.le_div_iff_mul_le hb]
  have h4 : (c + 1) * b = c * b + b := by ring
  omega

/-- Helper: `M ≤ ((M + b - 1) / b) * b`. -/
theorem le_ceilDiv_mul {M b : Nat} (hb : 0 < b) :
    M ≤ ((M + b - 1) / b) * b := by
  have h1 := Nat.div_add_mod (M + b - 1) b
  have h2 : (M + b - 1) % b < b := Nat.mod_lt _ hb
  have h3 : (M + b - 1) / b * b = b * ((M + b - 1) / b) := by ring
  omega

/-- Helper: the effective retrieval target of the pagination loop is at
most the collection size. -/
theorem effCap_le_length {α : Type} (items : List α) (limit : Option Nat)
    (M : Nat)
    (hM : M = match limit with
              | some l => if 0 < l then min l items.length else items.length
              | none => items.length) :
    M ≤ items.length := by
  rcases limit with _ | l
  · simp [hM]
  · rw [hM]; dsimp only; split <;> omega

/-- Helper: after the `j`-th request the loop's break condition — no
next page, or a truthy limit reached by the accumulated
`min (j * batch) N` records — holds exactly when the effective target
`M` has been covered. -/
theorem pag_stop_iff (limit : Option Nat) (N jb M : Nat)
    (hM : M = match limit with
              | some l => if 0 < l then min l N else N
              | none => N) :
    (N ≤ jb ∨ limitHitB limit (min jb N) = true) ↔ M ≤ jb := by
  cases limit with
  | none => simp [limitHitB, hM]
  | some l =>
    subst hM
    by_cases hl : 0 < l <;> simp [limitHitB, hl] <;> omega

/-- Helper: one unfolding of the pagination loop from the aligned state
reached after `k` requests (accumulator = first `k * b` items, offset
`k * b`, offsets `0, b, …, (k-1) * b` logged). -/
theorem pagGo_step {α : Type} (items : List α) (b : Nat)
    (limit : Option Nat) (M k : Nat) (hb : 0 < b)
    (hM : M = match limit with
              | some l => if 0 < l then min l items.length else items.length
              | none => items.length) :
    pagGo items b limit (items.take (k * b)) (k * b)
        ((List.range k).map (fun i => i * b)) =
      if M ≤ (k + 1) * b then
        (items.take ((k + 1) * b),
         (List.range (k + 1)).map (fun i => i * b))
      else
        pagGo items b limit (items.take ((k + 1) * b)) ((k + 1) * b)
          ((List.range (k + 1)).map (fun i => i * b)) := by
  have hacc : items.take (k * b) ++ (items.drop (k * b)).take b
      = items.take ((k + 1) * b) := by
    rw [Nat.succ_mul]
    exact (List.take_add _ _ _).symm
  have hlog : (List.range k).map (fun i => i * b) ++ [k * b]
      = (List.range (k + 1)).map (fun i => i * b) := by
    rw [List.range_succ k, List.map_append]
    rfl
  have hmul : k * b + b = (k + 1) * b := by ring
  have hcond : (items.length ≤ (k + 1) * b ∨
      limitHitB limit (min ((k + 1) * b) items.length) = true ∨ b = 0)
      ↔ M ≤ (k + 1) * b := by
    have hiff := pag_stop_iff limit items.length ((k + 1) * b) M hM
    constructor
    · rintro (h | h | h)
      · exact hiff.mp (Or.inl h)
      · exact hiff.mp (Or.inr h)
      · omega
    · intro h
      rcases hiff.mpr h with h' | h'
      · exact Or.inl h'
      · exact Or.inr (Or.inl h')
  conv_lhs => rw [pagGo]
  simp only [hacc, hlog, List.length_take, hmul]
  by_cases hstop : M ≤ (k + 1) * b
  · rw [if_pos (hcond.mpr hstop), if_pos hstop]
  · rw [if_neg (fun hc => hstop (hcond.mp hc)), if_neg hstop]

/-- Helper: closed form of the pagination loop from the aligned state
after `k` requests: in total `max (k + 1) ⌈M / b⌉` requests are made, at
the offsets `0, b, 2b, …`, and the first `(total requests) * b` items
(saturating at the collection size) are accumulated. -/
theorem pagGo_aligned {α : Type} (items : List α) (b : Nat)
    (limit : Option Nat) (M : Nat) (hb : 0 < b)
    (hM : M = match limit with
              | some l => if 0 < l then min l items.length else items.length
              | none => items.length) :
    ∀ (n k : Nat), items.length - k * b ≤ n → (k = 0 ∨ k * b < M) →
      pagGo items b limit (items.take (k * b)) (k * b)
          ((List.range k).map (fun i => i * b)) =
        (items.take ((max (k + 1) ((M + b - 1) / b)) * b),
         (List.range (max (k + 1) ((M + b - 1) / b))).map (fun i => i * b)) := by
  intro n
  induction n with
  | zero =>
    intro k hle _
    have hMN : M ≤ items.length := effCap_le_length items limit M hM
    have hmul : (k + 1) * b = k * b + b := by ring
    have hstop : M ≤ (k + 1) * b := by omega
    rw [pagGo_step items b limit M k hb hM, if_pos hstop,
      max_eq_left (ceilDiv_le_of_le hb hstop)]
  | succ n ih =>
    intro k hle hk
    rw [pagGo_step items b limit M k hb hM]
    by_cases hstop : M ≤ (k + 1) * b
    · rw [if_pos hstop, max_eq_left (ceilDiv_le_of_le hb hstop)]
    · rw [if_neg hstop]
      push_neg at hstop
      have hmul : (k + 1) * b = k * b + b := by ring
      have hle2 : items.length - (k + 1) * b ≤ n := by
        have hMN : M ≤ items.length := effCap_le_length items limit M hM
        omega
      rw [ih (k + 1) hle2 (Or.inr hstop)]
      have h2 : k + 1 + 1 ≤ (M + b - 1) / b := le_ceilDiv_of_lt hb hstop
      have hmax : max (k + 1 + 1) ((M + b - 1) / b)
          = max (k + 1) ((M + b - 1) / b) := by omega
      rw [hmax]

/-- C4, counterexample: on an empty collection the loop still issues one
request (at offset 0) although the claimed `ceil(N/P)` is `0`, and a
caller-supplied limit of `0` is Python-falsy, so the call returns all 3
items of a 3-item collection rather than at most `0`. -/
theorem get_user_playlists_counterexample :
    (get_user_playlists_raw ([] : List Nat) none).2 = [0] ∧
    ((([] : List Nat)).length + 50 - 1) / 50 = 0 ∧
    (get_user_playlists_raw [1, 2, 3] (some 0)).1 = [1, 2, 3] := by
  refine ⟨?_, by norm_num, ?_⟩ <;>
    simp [get_user_playlists_raw, pagGo, limitHitB]

/-- C4 (amended): for a collection of N items, the loop issues exactly
`max 1 (ceil(M/P))` requests — one request even when the collection is
empty — at offsets `0, P, 2P, …`, where `P` is the requested page size
(`50`, or `min(50, L)` under a limit) and `M` the effective target
(`N`, or `min(L, N)` under a limit `L ≥ 1`); it returns exactly the
first `M` items in their original order.  A limit never triggers more
requests than needed: `ceil(M/P)` pages suffice for `M` items. -/
theorem get_user_playlists_pagination {α : Type} (items : List α)
    (limit : Option Nat) (P M : Nat)
    (hP : P = match limit with | some l => min 50 l | none => 50)
    (hM : M = match limit with
              | some l => min l items.length
              | none => items.length)
    (hl : match limit with | some l => 0 < l | none => True) :
    (get_user_playlists_raw items limit).1 = items.take M ∧
    (get_user_playlists_raw items limit).2 =
      (List.range (max 1 ((M + P - 1) / P))).map (fun i => i * P) := by
  rcases limit with _ | l
  · subst hP
    have H := pagGo_aligned items 50 none M (by norm_num) (by simpa using hM)
      items.length 0 (by simp) (Or.inl rfl)
    simp only [Nat.zero_mul, List.take_zero, List.range_zero, List.map_nil,
      Nat.zero_add] at H
    unfold get_user_playlists_raw
    dsimp only
    rw [H]
    refine ⟨?_, rfl⟩
    have hMN : M = items.length := by simpa using hM
    have hq : M ≤ ((M + 50 - 1) / 50) * 50 := le_ceilDiv_mul (by norm_num)
    have hK : ((M + 50 - 1) / 50) * 50 ≤ (max 1 ((M + 50 - 1) / 50)) * 50 :=
      mul_le_mul_right' (le_max_right _ _) _
    rw [List.take_of_length_le (by omega), hMN, List.take_length]
  · have hl' : 0 < l := hl
    subst hP
    have hbpos : 0 < min 50 l := by omega
    have H := pagGo_aligned items (min 50 l) (some l) M hbpos
      (by rw [hM]; simp [hl']) items.length 0 (by simp) (Or.inl rfl)
    simp only [Nat.zero_mul, List.take_zero, List.range_zero, List.map_nil,
      Nat.zero_add] at H
    unfold get_user_playlists_raw
    dsimp only
    simp only [hl', if_true]
    rw [H]
    refine ⟨?_, rfl⟩
    rw [List.take_take, List.take_eq_take]
    have hq : M ≤ ((M + min 50 l - 1) / min 50 l) * min 50 l :=
      le_ceilDiv_mul hbpos
    have hK : ((M + min 50 l - 1) / min 50 l) * min 50 l ≤
        (max 1 ((M + min 50 l - 1) / min 50 l)) * min 50 l :=
      mul_le_mul_right' (le_max_right _ _) _
    have hM2 : M = min l items.length := by simpa using hM
    omega

/-- C4 witness: 120 items, page size 50, no limit — three requests at
offsets 0, 50, 100 and all 120 items returned in order. -/
theorem get_user_playlists_pagination_witness :
    (get_user_playlists_raw (List.range 120) none).1 =
      (List.range 120).take 120 ∧
    (get_user_playlists_raw (List.range 120) none).2 =
      (List.range (max 1 ((120 + 50 - 1) / 50))).map (fun i => i * 50) :=
  get_user_playlists_pagination (List.range 120) none 50 120 rfl (by simp)
    trivial

end PlaylistManager
